import Mathlib

/-!
Verification of `src/tamano_llaves.py` (repository PedroBiel/ISO_4162).

The Python module defines a class `DatosTamanoLlaves` that lazily loads the
table `tamano_llaves` from the SQLite database `tornillos.db` into a pandas
DataFrame, caches it in the instance field `_df_cache`, and exposes column
accessors (`metricas`, `diametros_nominales`, `tamanos_llave`) and scalar
lookups by metric key (`diametro_nominal`, `tamano_llave`).

We embed the module shallowly:
  * a DataFrame is an ordered list of rows with the three columns of the
    table (`Métrica`, `dnom_mm`, `s_mm`); the floating-point columns are
    modelled as rationals, which is sound here because the code performs no
    arithmetic on them, only storage, equality filtering and retrieval;
  * the instance state is a structure mirroring the fields set by
    `__init__`; methods are functions from state to
    (result, new state, loader invocations performed), where the list of
    loader invocations records each `(database path, table name)` request
    made to the `SQLitePandasDF` collaborator during the call, so that
    laziness and idempotence of the cache are observable;
  * pandas `Series.item()` is embedded faithfully: it returns the sole
    element of a length-1 series and otherwise raises
    `ValueError("can only convert an array of size 1 to a Python scalar")`,
    for the empty and the longer case alike.
-/

namespace ISO4162

/-- A row of the `tamano_llaves` table, with the three columns used by the
code: `Métrica` (string key), `dnom_mm` (nominal diameter, mm) and `s_mm`
(wrench size, mm; `0` is the sentinel for "unknown"). -/
structure Row where
  metrica : String
  dnom_mm : ℚ
  s_mm : ℚ
deriving Repr, DecidableEq

/-- A pandas DataFrame holding the table: an ordered sequence of rows. -/
abbrev DataFrame := List Row

/-- The Python exception relevant to the lookup accessors: the `ValueError`
that pandas raises from `Series.item()` when the series length is not 1. -/
inductive PyError where
  | valueError (msg : String)
deriving Repr, DecidableEq

/-- The message of the `ValueError` raised by `Series.item()` on a series
whose length differs from 1 (pandas raises the same error for an empty
series and for a series with several elements). -/
def itemErrMsg : String := "can only convert an array of size 1 to a Python scalar"

namespace Series

/-- pandas `Series.item()`: returns the sole element of a length-1 series,
otherwise raises `ValueError` (same message for length 0 and length > 1). -/
def item {α : Type} : List α → Except PyError α
  | [a] => Except.ok a
  | _ => Except.error (PyError.valueError itemErrMsg)

end Series

/-- A record of one invocation of the `SQLitePandasDF` collaborator:
the database path and the table name it was constructed with. -/
abbrev Call := String × String

/-- Instance state of `DatosTamanoLlaves`, mirroring the fields assigned in
`__init__`.  The field `sql_pd` holds the Table Loader collaborator.

Modelled from the spec: the collaborators `Paths` (Path Resolver) and
`SQLitePandasDF` (Table Loader) live in `src/utils`, which is not part of
this repository snapshot.  Per the spec, the Path Resolver "exposes a base
data-directory location" (kept abstract as the string passed to `init`) and
the Table Loader, "given a store location and a table name, returns the
full set of rows with named columns" (kept abstract as the function
`sql_pd`). -/
structure DatosTamanoLlaves where
  ruta_datos : String
  tornillos_db : String
  tabla : String
  sql_pd : String → String → DataFrame
  df_cache : Option DataFrame

namespace DatosTamanoLlaves

/-- `__init__`: sets `ruta_datos = f'\x7bPaths.data\x7d\\'`,
`tornillos_db = 'tornillos.db'`, `tabla = 'tamano_llaves'`, stores the
loader class in `sql_pd`, and leaves the cache slot `_df_cache` unset.
`paths_data` stands for `Paths.data`, the Path Resolver's base data
directory. -/
def init (paths_data : String) (loader : String → String → DataFrame) :
    DatosTamanoLlaves where
  ruta_datos := paths_data ++ "\\"
  tornillos_db := "tornillos.db"
  tabla := "tamano_llaves"
  sql_pd := loader
  df_cache := none

/-- `_load_dataframe`: if the cache slot is unset, constructs the loader on
`f'\x7bself.ruta_datos\x7d\x7bself.tornillos_db\x7d'` and `self.tabla`, reads the table,
stores it in the cache and returns it; otherwise returns the cached table.
The third component records the loader invocations performed by this call. -/
def load_dataframe (s : DatosTamanoLlaves) :
    DataFrame × DatosTamanoLlaves × List Call :=
  match s.df_cache with
  | some df => (df, s, [])
  | none =>
      let path := s.ruta_datos ++ s.tornillos_db
      let df := s.sql_pd path s.tabla
      (df, { s with df_cache := some df }, [(path, s.tabla)])

/-- `metricas`: returns `df['Métrica'].to_list()`. -/
def metricas (s : DatosTamanoLlaves) :
    List String × DatosTamanoLlaves × List Call :=
  match s.load_dataframe with
  | (df, s', c) => (df.map Row.metrica, s', c)

/-- `diametros_nominales`: returns `df['dnom_mm'].to_list()`. -/
def diametros_nominales (s : DatosTamanoLlaves) :
    List ℚ × DatosTamanoLlaves × List Call :=
  match s.load_dataframe with
  | (df, s', c) => (df.map Row.dnom_mm, s', c)

/-- `diametro_nominal`: returns
`df.loc[df['Métrica'] == metrica, 'dnom_mm'].item()` — the rows are
filtered by equality on the `Métrica` column, the `dnom_mm` column is
projected, and `Series.item()` extracts the sole element or raises. -/
def diametro_nominal (s : DatosTamanoLlaves) (metrica : String) :
    Except PyError ℚ × DatosTamanoLlaves × List Call :=
  match s.load_dataframe with
  | (df, s', c) =>
      (Series.item ((df.filter (fun r => r.metrica == metrica)).map Row.dnom_mm),
       s', c)

/-- `tamanos_llave`: returns `df['s_mm'].to_list()`. -/
def tamanos_llave (s : DatosTamanoLlaves) :
    List ℚ × DatosTamanoLlaves × List Call :=
  match s.load_dataframe with
  | (df, s', c) => (df.map Row.s_mm, s', c)

/-- `tamano_llave`: returns
`df.loc[df['Métrica'] == metrica, 's_mm'].item()`. -/
def tamano_llave (s : DatosTamanoLlaves) (metrica : String) :
    Except PyError ℚ × DatosTamanoLlaves × List Call :=
  match s.load_dataframe with
  | (df, s', c) =>
      (Series.item ((df.filter (fun r => r.metrica == metrica)).map Row.s_mm),
       s', c)

end DatosTamanoLlaves

/-! ### Core lemmas about the embedding -/

/-- On a state whose cache slot holds `df`, `_load_dataframe` returns the
cached table, leaves the state untouched and performs no loader call. -/
lemma load_dataframe_cached (s : DatosTamanoLlaves) (df : DataFrame)
    (h : s.df_cache = some df) : s.load_dataframe = (df, s, []) := by
  unfold DatosTamanoLlaves.load_dataframe
  rw [h]

/-- On a state whose cache slot is unset, `_load_dataframe` reads the table
from the loader at `ruta_datos ++ tornillos_db` / `tabla`, caches it and
reports exactly that one loader invocation. -/
lemma load_dataframe_uncached (s : DatosTamanoLlaves)
    (h : s.df_cache = none) :
    s.load_dataframe =
      (s.sql_pd (s.ruta_datos ++ s.tornillos_db) s.tabla,
       { s with df_cache := some (s.sql_pd (s.ruta_datos ++ s.tornillos_db) s.tabla) },
       [(s.ruta_datos ++ s.tornillos_db, s.tabla)]) := by
  unfold DatosTamanoLlaves.load_dataframe
  rw [h]

/-- `Series.item` raises the pandas `ValueError` whenever the series length
is not 1, for the empty and the multi-element case alike. -/
lemma item_error_of_length_ne_one {α : Type} (l : List α)
    (h : l.length ≠ 1) :
    Series.item l = Except.error (PyError.valueError itemErrMsg) := by
  match l with
  | [] => rfl
  | [a] => simp at h
  | a :: b :: t => rfl

/-- If `p` holds at index `i` of `df` and `p` holds on exactly one row of
`df`, then filtering `df` by `p` yields exactly the row at index `i`. -/
lemma filter_eq_singleton (p : Row → Bool) (df : List Row) :
    ∀ (i : Nat) (h : i < df.length),
      p df[i] = true → df.countP p = 1 →
      df.filter p = [df[i]] := by
  induction df with
  | nil => intro i h; simp at h
  | cons r t ih =>
    intro i h hp hc
    cases i with
    | zero =>
      simp only [List.getElem_cons_zero] at hp ⊢
      have h0 : t.countP p = 0 := by
        simp only [List.countP_cons, hp, if_true] at hc
        omega
      have hnil : t.filter p = [] := by
        rw [List.filter_eq_nil_iff]
        intro a ha
        by_contra hpa
        have : 0 < t.countP p :=
          List.countP_pos_iff.mpr ⟨a, ha, by simpa using hpa⟩
        omega
      simp [List.filter_cons, hp, hnil]
    | succ j =>
      have hj : j < t.length := Nat.lt_of_succ_lt_succ h
      simp only [List.getElem_cons_succ] at hp ⊢
      have hmem : t[j] ∈ t := List.getElem_mem hj
      have hpos : 0 < t.countP p := List.countP_pos_iff.mpr ⟨_, hmem, hp⟩
      have hpr : p r = false := by
        by_contra hf
        have hf' : p r = true := by
          cases hpb : p r with
          | false => exact absurd hpb hf
          | true => rfl
        simp only [List.countP_cons, hf', if_true] at hc
        omega
      have hct : t.countP p = 1 := by
        simpa only [List.countP_cons, hpr] using hc
      rw [List.filter_cons, hpr]
      exact ih j hj hp hct

/-- A lookup `df.loc[df['Métrica'] == m, col].item()` on a table in which
`m` occurs exactly once, at index `i`, returns column `col` of row `i`. -/
lemma lookup_unique (f : Row → ℚ) (df : DataFrame) (m : String) (i : Nat)
    (hi : i < df.length) (hm : df[i].metrica = m)
    (hu : df.countP (fun r => r.metrica == m) = 1) :
    Series.item ((df.filter (fun r => r.metrica == m)).map f) =
      Except.ok (f df[i]) := by
  have hp : (fun r => r.metrica == m) df[i] = true := by simpa using hm
  rw [filter_eq_singleton _ df i hi hp hu]
  rfl

/-- `metricas` in terms of `_load_dataframe` (structure eta). -/
lemma metricas_eq (s : DatosTamanoLlaves) :
    s.metricas = ((s.load_dataframe).1.map Row.metrica,
      (s.load_dataframe).2.1, (s.load_dataframe).2.2) := rfl

/-- `diametros_nominales` in terms of `_load_dataframe`. -/
lemma diametros_nominales_eq (s : DatosTamanoLlaves) :
    s.diametros_nominales = ((s.load_dataframe).1.map Row.dnom_mm,
      (s.load_dataframe).2.1, (s.load_dataframe).2.2) := rfl

/-- `tamanos_llave` in terms of `_load_dataframe`. -/
lemma tamanos_llave_eq (s : DatosTamanoLlaves) :
    s.tamanos_llave = ((s.load_dataframe).1.map Row.s_mm,
      (s.load_dataframe).2.1, (s.load_dataframe).2.2) := rfl

/-- `diametro_nominal` in terms of `_load_dataframe`. -/
lemma diametro_nominal_eq (s : DatosTamanoLlaves) (m : String) :
    s.diametro_nominal m =
      (Series.item (((s.load_dataframe).1.filter
          (fun r => r.metrica == m)).map Row.dnom_mm),
       (s.load_dataframe).2.1, (s.load_dataframe).2.2) := rfl

/-- `tamano_llave` in terms of `_load_dataframe`. -/
lemma tamano_llave_eq (s : DatosTamanoLlaves) (m : String) :
    s.tamano_llave m =
      (Series.item (((s.load_dataframe).1.filter
          (fun r => r.metrica == m)).map Row.s_mm),
       (s.load_dataframe).2.1, (s.load_dataframe).2.2) := rfl

/-! ### Concrete instances used by witnesses and counterexamples -/

/-- A concrete two-row table: `M8` (diameter 8, wrench 13) and `M10`
(diameter 10, wrench size unknown, sentinel `0`). -/
def dfW : DataFrame := [⟨"M8", 8, 13⟩, ⟨"M10", 10, 0⟩]

/-- A loader that serves `dfW` for any path and table name. -/
def loaderW : String → String → DataFrame := fun _ _ => dfW

/-- A freshly constructed instance (cache unset) over `loaderW`. -/
def sW0 : DatosTamanoLlaves := DatosTamanoLlaves.init "data" loaderW

/-- The instance `sW0` after its first load (cache holds `dfW`). -/
def sW : DatosTamanoLlaves := (sW0.load_dataframe).2.1

/-- The cache of `sW` holds `dfW`. -/
lemma sW_cache : sW.df_cache = some dfW := rfl

/-! ### Claim theorems -/

/-- C1: for every metric key `m` that occurs exactly once in the cached
table, `diametro_nominal m` returns the `dnom_mm` value and
`tamano_llave m` returns the `s_mm` value of the row at the index at which
`m` appears in `metricas()`, i.e. the scalar lookups agree with the column
accessors `diametros_nominales()` and `tamanos_llave()` at the matching
index. -/
theorem C1_scalar_lookups_agree_with_columns
    (s : DatosTamanoLlaves) (df : DataFrame) (hc : s.df_cache = some df)
    (m : String) (i : Nat) (hi : i < (s.metricas).1.length)
    (hm : (s.metricas).1[i] = m)
    (hu : df.countP (fun r => r.metrica == m) = 1) :
    (s.diametro_nominal m).1 = Except.ok ((s.diametros_nominales).1.getD i 0) ∧
    (s.tamano_llave m).1 = Except.ok ((s.tamanos_llave).1.getD i 0) := by
  have hload := load_dataframe_cached s df hc
  have hmet : (s.metricas).1 = df.map Row.metrica := by
    unfold DatosTamanoLlaves.metricas
    rw [hload]
  have hdn : (s.diametros_nominales).1 = df.map Row.dnom_mm := by
    unfold DatosTamanoLlaves.diametros_nominales
    rw [hload]
  have hts : (s.tamanos_llave).1 = df.map Row.s_mm := by
    unfold DatosTamanoLlaves.tamanos_llave
    rw [hload]
  have hidf : i < df.length := by
    have h' := hi
    rw [hmet, List.length_map] at h'
    exact h'
  have hmm : df[i].metrica = m := by
    have h2 := (List.getElem_of_eq hmet hi).symm.trans hm
    simpa using h2
  have hgetdn : (s.diametros_nominales).1.getD i 0 = df[i].dnom_mm := by
    rw [hdn, List.getD_eq_getElem (df.map Row.dnom_mm) 0 (by simpa using hidf),
      List.getElem_map]
  have hgetts : (s.tamanos_llave).1.getD i 0 = df[i].s_mm := by
    rw [hts, List.getD_eq_getElem (df.map Row.s_mm) 0 (by simpa using hidf),
      List.getElem_map]
  refine ⟨?_, ?_⟩
  · rw [hgetdn]
    unfold DatosTamanoLlaves.diametro_nominal
    rw [hload]
    exact lookup_unique Row.dnom_mm df m i hidf hmm hu
  · rw [hgetts]
    unfold DatosTamanoLlaves.tamano_llave
    rw [hload]
    exact lookup_unique Row.s_mm df m i hidf hmm hu

/-- C1 witness at the concrete cached instance `sW`, metric "M8", index 0. -/
theorem C1_witness :
    (sW.diametro_nominal "M8").1 =
        Except.ok ((sW.diametros_nominales).1.getD 0 0) ∧
    (sW.tamano_llave "M8").1 =
        Except.ok ((sW.tamanos_llave).1.getD 0 0) :=
  C1_scalar_lookups_agree_with_columns sW dfW rfl "M8" 0
    (by decide) (by decide) (by decide)

/-- Table used to refute C2: key "M999" is absent, key "M4" is duplicated. -/
def dfC2 : DataFrame := [⟨"M8", 8, 13⟩, ⟨"M4", 4, 7⟩, ⟨"M4", 4, 7⟩]

/-- Loader serving `dfC2`. -/
def loaderC2 : String → String → DataFrame := fun _ _ => dfC2

/-- Instance over `dfC2` after its first load. -/
def sC2 : DatosTamanoLlaves :=
  ((DatosTamanoLlaves.init "data" loaderC2).load_dataframe).2.1

/-- C2 counterexample: on a concrete instance, looking up the absent metric
"M999" produces the generic pandas `ValueError` of `Series.item()`, the
very same error value as looking up the duplicated metric "M4"; the
zero-match failure is therefore not signalled by a dedicated not-found
error type. -/
theorem C2_counterexample :
    (sC2.diametro_nominal "M999").1 =
        Except.error (PyError.valueError itemErrMsg) ∧
    (sC2.diametro_nominal "M999").1 = (sC2.diametro_nominal "M4").1 ∧
    (sC2.tamano_llave "M999").1 = (sC2.tamano_llave "M4").1 :=
  ⟨rfl, rfl, rfl⟩

/-- C2 amended: looking up a metric that matches zero rows of the cached
table makes both `diametro_nominal` and `tamano_llave` raise the pandas
`ValueError` from `Series.item()` — the same exception type as the
ambiguous case, not a dedicated not-found error — surfaced directly to the
caller, with no retry. -/
theorem C2_amended_absent_raises_item_valueerror
    (s : DatosTamanoLlaves) (df : DataFrame) (hc : s.df_cache = some df)
    (m : String) (hz : df.countP (fun r => r.metrica == m) = 0) :
    (s.diametro_nominal m).1 =
        Except.error (PyError.valueError itemErrMsg) ∧
    (s.tamano_llave m).1 =
        Except.error (PyError.valueError itemErrMsg) := by
  have hload := load_dataframe_cached s df hc
  have hlen : (df.filter (fun r => r.metrica == m)).length = 0 := by
    rw [← List.countP_eq_length_filter]
    exact hz
  refine ⟨?_, ?_⟩
  · rw [diametro_nominal_eq, hload]
    exact item_error_of_length_ne_one _ (by simp [hlen])
  · rw [tamano_llave_eq, hload]
    exact item_error_of_length_ne_one _ (by simp [hlen])

/-- C2 witness at the concrete cached instance `sW` and absent "M999". -/
theorem C2_witness :
    (sW.diametro_nominal "M999").1 =
        Except.error (PyError.valueError itemErrMsg) ∧
    (sW.tamano_llave "M999").1 =
        Except.error (PyError.valueError itemErrMsg) :=
  C2_amended_absent_raises_item_valueerror sW dfW rfl "M999" (by decide)

/-- Table used to refute C3: key "M10" is duplicated, key "M777" absent. -/
def dfC3 : DataFrame := [⟨"M10", 10, 17⟩, ⟨"M10", 10, 17⟩, ⟨"M12", 12, 19⟩]

/-- Loader serving `dfC3`. -/
def loaderC3 : String → String → DataFrame := fun _ _ => dfC3

/-- Instance over `dfC3` after its first load. -/
def sC3 : DatosTamanoLlaves :=
  ((DatosTamanoLlaves.init "data" loaderC3).load_dataframe).2.1

/-- C3 counterexample: on a concrete instance whose table duplicates "M10",
both lookups produce the generic pandas `ValueError` of `Series.item()`,
the very same error value as looking up the absent metric "M777"; the
multi-match failure is therefore not signalled by a dedicated ambiguity
error type distinct from the not-found error. -/
theorem C3_counterexample :
    (sC3.diametro_nominal "M10").1 =
        Except.error (PyError.valueError itemErrMsg) ∧
    (sC3.diametro_nominal "M10").1 = (sC3.diametro_nominal "M777").1 ∧
    (sC3.tamano_llave "M10").1 = (sC3.tamano_llave "M777").1 :=
  ⟨rfl, rfl, rfl⟩

/-- C3 amended: looking up a metric that matches more than one row of the
cached table makes both `diametro_nominal` and `tamano_llave` raise the
pandas `ValueError` from `Series.item()` — the same exception type as the
not-found case, not a dedicated ambiguity error — surfaced directly, with
no retry. -/
theorem C3_amended_ambiguous_raises_item_valueerror
    (s : DatosTamanoLlaves) (df : DataFrame) (hc : s.df_cache = some df)
    (m : String) (hdup : 1 < df.countP (fun r => r.metrica == m)) :
    (s.diametro_nominal m).1 =
        Except.error (PyError.valueError itemErrMsg) ∧
    (s.tamano_llave m).1 =
        Except.error (PyError.valueError itemErrMsg) := by
  have hload := load_dataframe_cached s df hc
  have hlen : (df.filter (fun r => r.metrica == m)).length ≠ 1 := by
    rw [← List.countP_eq_length_filter]
    omega
  refine ⟨?_, ?_⟩
  · rw [diametro_nominal_eq, hload]
    exact item_error_of_length_ne_one _ (by simp [hlen])
  · rw [tamano_llave_eq, hload]
    exact item_error_of_length_ne_one _ (by simp [hlen])

/-- C3 witness at the concrete cached instance `sC3` and duplicated "M10". -/
theorem C3_witness :
    (sC3.diametro_nominal "M10").1 =
        Except.error (PyError.valueError itemErrMsg) ∧
    (sC3.tamano_llave "M10").1 =
        Except.error (PyError.valueError itemErrMsg) :=
  C3_amended_ambiguous_raises_item_valueerror sC3 dfC3 rfl "M10" (by decide)

/-- C4: `_load_dataframe` is idempotent: on an instance whose cache slot is
unset it performs exactly one loader invocation and stores the result in
the cache; the next call performs no loader invocation and returns the
cached table with the state unchanged; consequently each accessor invoked a
second time (on the state produced by its first invocation) returns an
identical result while performing no loader invocation. -/
theorem C4_load_idempotent (s : DatosTamanoLlaves) (h : s.df_cache = none) :
    (s.load_dataframe).2.2.length = 1 ∧
    (s.load_dataframe).2.1.df_cache = some (s.load_dataframe).1 ∧
    (s.load_dataframe).2.1.load_dataframe =
      ((s.load_dataframe).1, (s.load_dataframe).2.1, []) ∧
    ((s.metricas).2.1.metricas).1 = (s.metricas).1 ∧
    ((s.metricas).2.1.metricas).2.2 = [] ∧
    ((s.diametros_nominales).2.1.diametros_nominales).1 =
      (s.diametros_nominales).1 ∧
    ((s.diametros_nominales).2.1.diametros_nominales).2.2 = [] ∧
    ((s.tamanos_llave).2.1.tamanos_llave).1 = (s.tamanos_llave).1 ∧
    ((s.tamanos_llave).2.1.tamanos_llave).2.2 = [] ∧
    ∀ m : String,
      ((s.diametro_nominal m).2.1.diametro_nominal m).1 =
        (s.diametro_nominal m).1 ∧
      ((s.diametro_nominal m).2.1.diametro_nominal m).2.2 = [] ∧
      ((s.tamano_llave m).2.1.tamano_llave m).1 = (s.tamano_llave m).1 ∧
      ((s.tamano_llave m).2.1.tamano_llave m).2.2 = [] := by
  have hcache1 : (s.load_dataframe).2.1.df_cache = some (s.load_dataframe).1 := by
    rw [load_dataframe_uncached s h]
  have h2 := load_dataframe_cached (s.load_dataframe).2.1 (s.load_dataframe).1 hcache1
  have hlen1 : (s.load_dataframe).2.2.length = 1 := by
    rw [load_dataframe_uncached s h]
    rfl
  refine ⟨hlen1, hcache1, h2, ?_, ?_, ?_, ?_, ?_, ?_, ?_⟩
  · simp only [metricas_eq, h2]
  · simp only [metricas_eq, h2]
  · simp only [diametros_nominales_eq, h2]
  · simp only [diametros_nominales_eq, h2]
  · simp only [tamanos_llave_eq, h2]
  · simp only [tamanos_llave_eq, h2]
  · intro m
    refine ⟨?_, ?_, ?_, ?_⟩
    · simp only [diametro_nominal_eq, h2]
    · simp only [diametro_nominal_eq, h2]
    · simp only [tamano_llave_eq, h2]
    · simp only [tamano_llave_eq, h2]

/-- C4 witness at the freshly constructed instance `sW0` (cache unset). -/
theorem C4_witness :
    ((sW0.load_dataframe).2.2.length = 1 ∧
     (sW0.load_dataframe).2.1.df_cache = some (sW0.load_dataframe).1 ∧
     (sW0.load_dataframe).2.1.load_dataframe =
       ((sW0.load_dataframe).1, (sW0.load_dataframe).2.1, []) ∧
     ((sW0.metricas).2.1.metricas).1 = (sW0.metricas).1 ∧
     ((sW0.metricas).2.1.metricas).2.2 = [] ∧
     ((sW0.diametros_nominales).2.1.diametros_nominales).1 =
       (sW0.diametros_nominales).1 ∧
     ((sW0.diametros_nominales).2.1.diametros_nominales).2.2 = [] ∧
     ((sW0.tamanos_llave).2.1.tamanos_llave).1 = (sW0.tamanos_llave).1 ∧
     ((sW0.tamanos_llave).2.1.tamanos_llave).2.2 = [] ∧
     ∀ m : String,
       ((sW0.diametro_nominal m).2.1.diametro_nominal m).1 =
         (sW0.diametro_nominal m).1 ∧
       ((sW0.diametro_nominal m).2.1.diametro_nominal m).2.2 = [] ∧
       ((sW0.tamano_llave m).2.1.tamano_llave m).1 =
         (sW0.tamano_llave m).1 ∧
       ((sW0.tamano_llave m).2.1.tamano_llave m).2.2 = []) :=
  C4_load_idempotent sW0 rfl

/-- C5: on a cached table `df`, `metricas()` returns the `Métrica` column
in stored row order, the three column accessors return sequences of the
same length as the table, and at every index `i` each sequence holds the
corresponding field of row `i` of the table. -/
theorem C5_columns_aligned (s : DatosTamanoLlaves) (df : DataFrame)
    (hc : s.df_cache = some df) :
    (s.metricas).1 = df.map Row.metrica ∧
    (s.metricas).1.length = df.length ∧
    (s.diametros_nominales).1.length = df.length ∧
    (s.tamanos_llave).1.length = df.length ∧
    ∀ (i : Nat) (hi : i < df.length),
      (s.metricas).1.getD i "" = (df.get ⟨i, hi⟩).metrica ∧
      (s.diametros_nominales).1.getD i 0 = (df.get ⟨i, hi⟩).dnom_mm ∧
      (s.tamanos_llave).1.getD i 0 = (df.get ⟨i, hi⟩).s_mm := by
  have hload := load_dataframe_cached s df hc
  have hmet : (s.metricas).1 = df.map Row.metrica := by
    rw [metricas_eq, hload]
  have hdn : (s.diametros_nominales).1 = df.map Row.dnom_mm := by
    rw [diametros_nominales_eq, hload]
  have hts : (s.tamanos_llave).1 = df.map Row.s_mm := by
    rw [tamanos_llave_eq, hload]
  refine ⟨hmet, by rw [hmet, List.length_map], by rw [hdn, List.length_map],
    by rw [hts, List.length_map], ?_⟩
  intro i hi
  refine ⟨?_, ?_, ?_⟩
  · rw [hmet, List.getD_eq_getElem (df.map Row.metrica) "" (by simpa using hi),
      List.getElem_map, List.get_eq_getElem]
  · rw [hdn, List.getD_eq_getElem (df.map Row.dnom_mm) 0 (by simpa using hi),
      List.getElem_map, List.get_eq_getElem]
  · rw [hts, List.getD_eq_getElem (df.map Row.s_mm) 0 (by simpa using hi),
      List.getElem_map, List.get_eq_getElem]

/-- C5 witness at the concrete cached instance `sW`. -/
theorem C5_witness :
    ((sW.metricas).1 = dfW.map Row.metrica ∧
     (sW.metricas).1.length = dfW.length ∧
     (sW.diametros_nominales).1.length = dfW.length ∧
     (sW.tamanos_llave).1.length = dfW.length ∧
     ∀ (i : Nat) (hi : i < dfW.length),
       (sW.metricas).1.getD i "" = (dfW.get ⟨i, hi⟩).metrica ∧
       (sW.diametros_nominales).1.getD i 0 = (dfW.get ⟨i, hi⟩).dnom_mm ∧
       (sW.tamanos_llave).1.getD i 0 = (dfW.get ⟨i, hi⟩).s_mm) :=
  C5_columns_aligned sW dfW rfl

/-- C6: for a metric `m` that occurs exactly once in the cached table and
whose stored wrench size is the sentinel `0` (meaning unknown),
`tamano_llave m` returns `0` normally, raising no error. -/
theorem C6_sentinel_zero_returned (s : DatosTamanoLlaves) (df : DataFrame)
    (hc : s.df_cache = some df) (m : String) (i : Nat) (hi : i < df.length)
    (hm : (df.get ⟨i, hi⟩).metrica = m)
    (hu : df.countP (fun r => r.metrica == m) = 1)
    (hs : (df.get ⟨i, hi⟩).s_mm = 0) :
    (s.tamano_llave m).1 = Except.ok 0 := by
  have hload := load_dataframe_cached s df hc
  rw [tamano_llave_eq, hload]
  have hm' : df[i].metrica = m := hm
  have hs' : df[i].s_mm = 0 := hs
  have hitem := lookup_unique Row.s_mm df m i hi hm' hu
  simpa [hs'] using hitem

/-- C6 witness at the concrete cached instance `sW` and metric "M10",
whose stored wrench size is the sentinel `0`. -/
theorem C6_witness : (sW.tamano_llave "M10").1 = Except.ok 0 :=
  C6_sentinel_zero_returned sW dfW rfl "M10" 1 (by decide) (by decide)
    (by decide) (by decide)

/-- C7: no public accessor mutates the instance beyond the one-time
population of the cache slot: on an instance whose cache already holds the
table, every accessor returns the state unchanged; and on any instance at
all, `_load_dataframe` (hence every accessor, whose resulting state is
exactly that of `_load_dataframe`) leaves `ruta_datos`, `tornillos_db`,
`tabla` and `sql_pd` untouched. -/
theorem C7_no_mutation_beyond_cache (s : DatosTamanoLlaves)
    (df : DataFrame) (hc : s.df_cache = some df) (m : String) :
    (s.metricas).2.1 = s ∧
    (s.diametros_nominales).2.1 = s ∧
    (s.tamanos_llave).2.1 = s ∧
    (s.diametro_nominal m).2.1 = s ∧
    (s.tamano_llave m).2.1 = s ∧
    (∀ s₀ : DatosTamanoLlaves,
      (s₀.load_dataframe).2.1.ruta_datos = s₀.ruta_datos ∧
      (s₀.load_dataframe).2.1.tornillos_db = s₀.tornillos_db ∧
      (s₀.load_dataframe).2.1.tabla = s₀.tabla ∧
      (s₀.load_dataframe).2.1.sql_pd = s₀.sql_pd) ∧
    (∀ s₀ : DatosTamanoLlaves,
      (s₀.metricas).2.1 = (s₀.load_dataframe).2.1 ∧
      (s₀.diametros_nominales).2.1 = (s₀.load_dataframe).2.1 ∧
      (s₀.tamanos_llave).2.1 = (s₀.load_dataframe).2.1 ∧
      (s₀.diametro_nominal m).2.1 = (s₀.load_dataframe).2.1 ∧
      (s₀.tamano_llave m).2.1 = (s₀.load_dataframe).2.1) := by
  have hload := load_dataframe_cached s df hc
  refine ⟨?_, ?_, ?_, ?_, ?_, ?_, ?_⟩
  · rw [metricas_eq, hload]
  · rw [diametros_nominales_eq, hload]
  · rw [tamanos_llave_eq, hload]
  · rw [diametro_nominal_eq, hload]
  · rw [tamano_llave_eq, hload]
  · intro s₀
    unfold DatosTamanoLlaves.load_dataframe
    cases hcc : s₀.df_cache with
    | none => exact ⟨rfl, rfl, rfl, rfl⟩
    | some d => exact ⟨rfl, rfl, rfl, rfl⟩
  · intro s₀
    exact ⟨rfl, rfl, rfl, rfl, rfl⟩

/-- C7 witness at the concrete cached instance `sW` and metric "M8". -/
theorem C7_witness :
    ((sW.metricas).2.1 = sW ∧
     (sW.diametros_nominales).2.1 = sW ∧
     (sW.tamanos_llave).2.1 = sW ∧
     (sW.diametro_nominal "M8").2.1 = sW ∧
     (sW.tamano_llave "M8").2.1 = sW ∧
     (∀ s₀ : DatosTamanoLlaves,
       (s₀.load_dataframe).2.1.ruta_datos = s₀.ruta_datos ∧
       (s₀.load_dataframe).2.1.tornillos_db = s₀.tornillos_db ∧
       (s₀.load_dataframe).2.1.tabla = s₀.tabla ∧
       (s₀.load_dataframe).2.1.sql_pd = s₀.sql_pd) ∧
     (∀ s₀ : DatosTamanoLlaves,
       (s₀.metricas).2.1 = (s₀.load_dataframe).2.1 ∧
       (s₀.diametros_nominales).2.1 = (s₀.load_dataframe).2.1 ∧
       (s₀.tamanos_llave).2.1 = (s₀.load_dataframe).2.1 ∧
       (s₀.diametro_nominal "M8").2.1 = (s₀.load_dataframe).2.1 ∧
       (s₀.tamano_llave "M8").2.1 = (s₀.load_dataframe).2.1)) :=
  C7_no_mutation_beyond_cache sW dfW rfl "M8"

/-- C8: for every base data directory `d` and every loader, the first load
of a freshly constructed instance invokes the Table Loader with exactly the
store location `d ++ '\\' ++ 'tornillos.db'` (the Path Resolver's base
directory with the fixed file name appended) and the fixed table name
`'tamano_llaves'`; the instance fields are configured accordingly. -/
theorem C8_store_location (d : String)
    (loader : String → String → DataFrame) :
    ((DatosTamanoLlaves.init d loader).load_dataframe).2.2 =
      [(d ++ "\\" ++ "tornillos.db", "tamano_llaves")] ∧
    (DatosTamanoLlaves.init d loader).ruta_datos = d ++ "\\" ∧
    (DatosTamanoLlaves.init d loader).tornillos_db = "tornillos.db" ∧
    (DatosTamanoLlaves.init d loader).tabla = "tamano_llaves" :=
  ⟨rfl, rfl, rfl, rfl⟩

/-- C9: for every metric key whose number of matching rows in the cached
table is not exactly one (zero matches or several), both `diametro_nominal`
and `tamano_llave` raise the one `ValueError` produced by pandas
`Series.item()` — the identical error value in both failure causes, so the
two causes are not distinguished by distinct error types. -/
theorem C9_single_valueerror_both_causes (s : DatosTamanoLlaves)
    (df : DataFrame) (hc : s.df_cache = some df) (m : String)
    (hne : df.countP (fun r => r.metrica == m) ≠ 1) :
    (s.diametro_nominal m).1 =
        Except.error (PyError.valueError itemErrMsg) ∧
    (s.tamano_llave m).1 =
        Except.error (PyError.valueError itemErrMsg) := by
  have hload := load_dataframe_cached s df hc
  have hlen : (df.filter (fun r => r.metrica == m)).length ≠ 1 := by
    rw [← List.countP_eq_length_filter]
    exact hne
  refine ⟨?_, ?_⟩
  · rw [diametro_nominal_eq, hload]
    exact item_error_of_length_ne_one _ (by simp [hlen])
  · rw [tamano_llave_eq, hload]
    exact item_error_of_length_ne_one _ (by simp [hlen])

/-- Table for the C9 witness: "M5" is duplicated and "M404" is absent. -/
def dfC9 : DataFrame := [⟨"M5", 5, 8⟩, ⟨"M5", 5, 8⟩, ⟨"M6", 6, 10⟩]

/-- Loader serving `dfC9`. -/
def loaderC9 : String → String → DataFrame := fun _ _ => dfC9

/-- Instance over `dfC9` after its first load. -/
def sC9 : DatosTamanoLlaves :=
  ((DatosTamanoLlaves.init "data" loaderC9).load_dataframe).2.1

/-- C9 witness: both failure causes at concrete inputs — the duplicated
"M5" and the absent "M404" — produce the identical `ValueError`. -/
theorem C9_witness :
    ((sC9.diametro_nominal "M5").1 =
        Except.error (PyError.valueError itemErrMsg) ∧
     (sC9.tamano_llave "M5").1 =
        Except.error (PyError.valueError itemErrMsg)) ∧
    ((sC9.diametro_nominal "M404").1 =
        Except.error (PyError.valueError itemErrMsg) ∧
     (sC9.tamano_llave "M404").1 =
        Except.error (PyError.valueError itemErrMsg)) :=
  ⟨C9_single_valueerror_both_causes sC9 dfC9 rfl "M5" (by decide),
   C9_single_valueerror_both_causes sC9 dfC9 rfl "M404" (by decide)⟩

/-- C10: failed lookups are atomic with respect to the cache: if a lookup
on a freshly constructed instance raises (zero or multiple matches), the
cache slot still holds exactly the table loaded on first access and the
resulting state is exactly the post-load state — the error occurs strictly
after the load and never clears or alters the cached table. -/
theorem C10_failed_lookup_preserves_cache (s : DatosTamanoLlaves)
    (h : s.df_cache = none) (m : String) (e : PyError)
    (herr : (s.diametro_nominal m).1 = Except.error e ∨
            (s.tamano_llave m).1 = Except.error e) :
    (s.diametro_nominal m).2.1.df_cache = some (s.load_dataframe).1 ∧
    (s.tamano_llave m).2.1.df_cache = some (s.load_dataframe).1 ∧
    (s.diametro_nominal m).2.1 = (s.load_dataframe).2.1 ∧
    (s.tamano_llave m).2.1 = (s.load_dataframe).2.1 := by
  have hcache1 : (s.load_dataframe).2.1.df_cache =
      some (s.load_dataframe).1 := by
    rw [load_dataframe_uncached s h]
  exact ⟨hcache1, hcache1, rfl, rfl⟩

/-- C10 witness at the freshly constructed instance `sW0` and the absent
metric "M999", whose lookup raises. -/
theorem C10_witness :
    (sW0.diametro_nominal "M999").2.1.df_cache =
        some (sW0.load_dataframe).1 ∧
    (sW0.tamano_llave "M999").2.1.df_cache =
        some (sW0.load_dataframe).1 ∧
    (sW0.diametro_nominal "M999").2.1 = (sW0.load_dataframe).2.1 ∧
    (sW0.tamano_llave "M999").2.1 = (sW0.load_dataframe).2.1 :=
  C10_failed_lookup_preserves_cache sW0 rfl "M999"
    (PyError.valueError itemErrMsg) (Or.inl rfl)

end ISO4162
